import Mathlib

set_option maxRecDepth 10000

/-!
# CampusKart order-placement and inventory engine — verification development

Shallow embedding of the CampusKart marketplace backend (five iterations:
legacy, v1, v2, v3, v4).  The v3 application (`src/v3/app.py`,
`src/v3/utils.py`) is the most complete incarnation: its SQLite triggers
(stock decrement, stock check, self-purchase block, delete guard,
restock-on-delete) together with the Flask route handlers define the order
placement engine and lifecycle controller.  The legacy and v1 placement
paths are embedded as well, since several properties quantify over them.

Conventions of the embedding:
* SQLite `INTEGER` columns are `Int` (they may legitimately go negative in
  the source), `TEXT` statuses are `String`.  `REAL` prices are modelled
  as `Int`: the engine only ever multiplies a unit price by an integer
  quantity, no claim depends on fractional values, and the seeds use
  integral prices; floating-point rounding is out of scope.
* Randomness (`random.randint`, `random.choices`) is passed in as an
  explicit parameter (the drawn number / the generated order id).
* A SQLite transaction (`with conn:`) that fails rolls back; the embedding
  returns the original state together with the error outcome.
* `hashlib.sha256(...).hexdigest()` is an external library call; it is
  modelled by an executable SHA-256 implementation (FIPS 180-4) below.
-/

/-! ## SHA-256 (model of `hashlib.sha256(...).hexdigest()`) -/

namespace Sha256

/-- 32-bit rotate right, on naturals reduced mod `2^32`. -/
def rotr (x n : Nat) : Nat := (x >>> n ||| x <<< (32 - n)) % 4294967296

/-- SHA-256 choice function. -/
def ch (x y z : Nat) : Nat := (x &&& y) ^^^ ((x ^^^ 4294967295) &&& z)

/-- SHA-256 majority function. -/
def maj (x y z : Nat) : Nat := (x &&& y) ^^^ (x &&& z) ^^^ (y &&& z)

/-- Big sigma-0. -/
def bsig0 (x : Nat) : Nat := rotr x 2 ^^^ rotr x 13 ^^^ rotr x 22

/-- Big sigma-1. -/
def bsig1 (x : Nat) : Nat := rotr x 6 ^^^ rotr x 11 ^^^ rotr x 25

/-- Small sigma-0. -/
def ssig0 (x : Nat) : Nat := rotr x 7 ^^^ rotr x 18 ^^^ (x >>> 3)

/-- Small sigma-1. -/
def ssig1 (x : Nat) : Nat := rotr x 17 ^^^ rotr x 19 ^^^ (x >>> 10)

/-- The 64 SHA-256 round constants. -/
def roundK : List Nat :=
  [1116352408, 1899447441, 3049323471, 3921009573, 961987163,
   1508970993, 2453635748, 2870763221, 3624381080, 310598401,
   607225278, 1426881987, 1925078388, 2162078206, 2614888103,
   3248222580, 3835390401, 4022224774, 264347078, 604807628,
   770255983, 1249150122, 1555081692, 1996064986, 2554220882,
   2821834349, 2952996808, 3210313671, 3336571891, 3584528711,
   113926993, 338241895, 666307205, 773529912, 1294757372,
   1396182291, 1695183700, 1986661051, 2177026350, 2456956037,
   2730485921, 2820302411, 3259730800, 3345764771, 3516065817,
   3600352804, 4094571909, 275423344, 430227734, 506948616,
   659060556, 883997877, 958139571, 1322822218, 1537002063,
   1747873779, 1955562222, 2024104815, 2227730452, 2361852424,
   2428436474, 2756734187, 3204031479, 3329325298]

/-- The eight 32-bit hash words. -/
structure Digest where
  w0 : Nat
  w1 : Nat
  w2 : Nat
  w3 : Nat
  w4 : Nat
  w5 : Nat
  w6 : Nat
  w7 : Nat

/-- SHA-256 initial hash value. -/
def initH : Digest :=
  ⟨1779033703, 3144134277, 1013904242, 2773480762,
   1359893119, 2600822924, 528734635, 1541459225⟩

/-- Working variables a–h of the compression loop. -/
structure Work where
  a : Nat
  b : Nat
  c : Nat
  d : Nat
  e : Nat
  f : Nat
  g : Nat
  h : Nat

/-- Extend the 16 block words by `t` additional schedule words. -/
def extendW (w : List Nat) : Nat → List Nat
  | 0 => w
  | t + 1 =>
    let v := extendW w t
    let n := v.length
    v ++ [(ssig1 (v.getD (n - 2) 0) + v.getD (n - 7) 0 +
           ssig0 (v.getD (n - 15) 0) + v.getD (n - 16) 0) % 4294967296]

/-- One SHA-256 round. -/
def round (s : Work) (wt kt : Nat) : Work :=
  let t1 := (s.h + bsig1 s.e + ch s.e s.f s.g + kt + wt) % 4294967296
  let t2 := (bsig0 s.a + maj s.a s.b s.c) % 4294967296
  ⟨(t1 + t2) % 4294967296, s.a, s.b, s.c, (s.d + t1) % 4294967296, s.e, s.f, s.g⟩

/-- Group a byte list into big-endian 32-bit words. -/
def bytesToWords : List Nat → List Nat
  | b0 :: b1 :: b2 :: b3 :: rest =>
    (((b0 * 256 + b1) * 256 + b2) * 256 + b3) :: bytesToWords rest
  | _ => []

/-- Compress one 512-bit block (64 bytes) into the running digest. -/
def compress (hv : Digest) (block : List Nat) : Digest :=
  let w := extendW (bytesToWords block) 48
  let s0 : Work := ⟨hv.w0, hv.w1, hv.w2, hv.w3, hv.w4, hv.w5, hv.w6, hv.w7⟩
  let s := (w.zip roundK).foldl (fun s p => round s p.1 p.2) s0
  ⟨(hv.w0 + s.a) % 4294967296, (hv.w1 + s.b) % 4294967296,
   (hv.w2 + s.c) % 4294967296, (hv.w3 + s.d) % 4294967296,
   (hv.w4 + s.e) % 4294967296, (hv.w5 + s.f) % 4294967296,
   (hv.w6 + s.g) % 4294967296, (hv.w7 + s.h) % 4294967296⟩

/-- The 8-byte big-endian encoding of the bit length. -/
def lenBytes (n : Nat) : List Nat :=
  [n >>> 56 % 256, n >>> 48 % 256, n >>> 40 % 256, n >>> 32 % 256,
   n >>> 24 % 256, n >>> 16 % 256, n >>> 8 % 256, n % 256]

/-- SHA-256 message padding: `0x80`, zeros, 64-bit bit-length. -/
def pad (msg : List Nat) : List Nat :=
  let l := msg.length
  msg ++ [128] ++ List.replicate ((64 - (l + 9) % 64) % 64) 0 ++ lenBytes (8 * l)

/-- Split a byte list into 64-byte blocks (with structural fuel so that the
definition unfolds by computation; `l.length` steps always suffice). -/
def blocksAux : Nat → List Nat → List (List Nat)
  | 0, _ => []
  | fuel + 1, l => if l = [] then [] else l.take 64 :: blocksAux fuel (l.drop 64)

/-- Split a byte list into 64-byte blocks. -/
def blocks (l : List Nat) : List (List Nat) := blocksAux l.length l

/-- UTF-8 encoding of one character (model of Python `str.encode()`). -/
def encodeChar (c : Char) : List Nat :=
  let n := c.toNat
  if n < 128 then [n]
  else if n < 2048 then [192 ||| (n >>> 6), 128 ||| (n &&& 63)]
  else if n < 65536 then
    [224 ||| (n >>> 12), 128 ||| ((n >>> 6) &&& 63), 128 ||| (n &&& 63)]
  else
    [240 ||| (n >>> 18), 128 ||| ((n >>> 12) &&& 63),
     128 ||| ((n >>> 6) &&& 63), 128 ||| (n &&& 63)]

/-- UTF-8 byte sequence of a string. -/
def utf8Bytes (s : String) : List Nat := (s.data.map encodeChar).flatten

/-- The SHA-256 digest of a string. -/
def hash (s : String) : Digest :=
  (blocks (pad (utf8Bytes s))).foldl compress initH

/-- A hex digit character (`0`–`9`, `a`–`f`). -/
def hexChar (n : Nat) : Char :=
  if n < 10 then Char.ofNat (48 + n) else Char.ofNat (87 + n)

/-- The 8 hex characters of one 32-bit word, most significant first. -/
def wordHex (w : Nat) : List Char :=
  [hexChar (w >>> 28 % 16), hexChar (w >>> 24 % 16), hexChar (w >>> 20 % 16),
   hexChar (w >>> 16 % 16), hexChar (w >>> 12 % 16), hexChar (w >>> 8 % 16),
   hexChar (w >>> 4 % 16), hexChar (w % 16)]

/-- The 64-character hex digest, as produced by `hexdigest()`. -/
def hexdigest (d : Digest) : String :=
  ⟨wordHex d.w0 ++ wordHex d.w1 ++ wordHex d.w2 ++ wordHex d.w3 ++
   wordHex d.w4 ++ wordHex d.w5 ++ wordHex d.w6 ++ wordHex d.w7⟩

/-- `hashlib.sha256(s.encode()).hexdigest()`. -/
def sha256hex (s : String) : String := hexdigest (hash s)

theorem wordHex_length (w : Nat) : (wordHex w).length = 8 := rfl

/-- Every hex digest has exactly 64 characters. -/
theorem sha256hex_length (s : String) : (sha256hex s).length = 64 := by
  simp [sha256hex, hexdigest, String.length, wordHex]

end Sha256

/-! ## OTP helpers (`src/v3/utils.py`) -/

/-- `generate_hashed_otp` from `src/v3/utils.py`: the draw of
`random.randint(1000, 9999)` is passed in as `draw`; returns the plaintext
OTP string and the SHA-256 hex digest truncated to 8 characters. -/
def generate_hashed_otp (draw : Nat) : String × String :=
  let otp := toString draw
  (otp, (Sha256.sha256hex otp).take 8)

/-- `check_otp` from `src/v3/utils.py`: fails closed when either argument is
empty (Python falsiness of the strings), otherwise recomputes the truncated
digest of the submission and compares for equality. -/
def check_otp (submitted_otp stored_hash : String) : Bool :=
  if submitted_otp = "" || stored_hash = "" then false
  else (Sha256.sha256hex submitted_otp).take 8 == stored_hash

/-- `generate_order_id` from `src/v3/utils.py` draws 8 random characters; the
embedding passes the generated identifier in explicitly, so the function is
the identity on the supplied draw. -/
def generate_order_id (draw : String) : String := draw

/-- The JSON `cart` field of a placement request, as Python sees it:
absent or null (falsy), a truthy value that is not a list, or a list of
lines. -/
inductive CartJson (α : Type)
  | missing
  | malformed
  | lines (l : List α)

/-! ## v3 data model (`src/v3/utils.py` schema, `src/v3/app.py` routes)

The `items` and `orders` tables are lists of rows.  `item_id` and
`order_id` are primary keys; `orders.item_id` is nullable because of the
`ON DELETE SET NULL` foreign key.  SQL `UPDATE ... WHERE` is a map over all
matching rows, `fetchone` is `List.find?`. -/

namespace V3

/-- A row of the v3 `items` table. -/
structure Item where
  item_id : Nat
  seller_id : Nat
  name : String
  price : Int
  status : String
  quantity : Int
deriving DecidableEq, Repr

/-- A row of the v3 `orders` table (note the plaintext `otp` column stored
alongside `hashed_otp`). -/
structure Order where
  order_id : String
  buyer_id : Nat
  seller_id : Nat
  item_id : Option Nat
  price : Int
  quantity_ordered : Int
  payment_mode : String
  payment_status : String
  order_status : String
  otp : String
  hashed_otp : String
deriving DecidableEq, Repr

/-- The v3 database state. -/
structure DB where
  items : List Item
  orders : List Order
deriving DecidableEq, Repr

/-- Trigger `prevent_self_purchase`: fires (aborts the insert) when the new
order row has `buyer_id = seller_id`. -/
def prevent_self_purchase (o : Order) : Bool := o.buyer_id == o.seller_id

/-- Trigger `check_stock_before_order`: fires when the scalar subquery
`SELECT quantity FROM items WHERE item_id = NEW.item_id` yields a value
smaller than `NEW.quantity_ordered` (a NULL subquery result — missing item
or NULL `item_id` — compares to NULL and does not raise). -/
def check_stock_before_order (items : List Item) (o : Order) : Bool :=
  match o.item_id with
  | none => false
  | some i =>
    match items.find? (fun it => it.item_id == i) with
    | none => false
    | some it => decide (it.quantity < o.quantity_ordered)

/-- Trigger `after_order_insert_update_item_stock`: decrement the item's
quantity by `NEW.quantity_ordered`, then mark the item `sold` when its
quantity is now `≤ 0`. -/
def after_order_insert_update_item_stock (items : List Item) (o : Order) :
    List Item :=
  let items1 := items.map fun it =>
    if some it.item_id == o.item_id then
      { it with quantity := it.quantity - o.quantity_ordered }
    else it
  items1.map fun it =>
    if some it.item_id == o.item_id && decide (it.quantity ≤ 0) then
      { it with status := "sold" }
    else it

/-- Trigger `after_order_delete_restock_item`: when a deleted order row was
not `cancelled`, add its quantity back to the item and mark it
`available`. -/
def after_order_delete_restock_item (items : List Item) (old : Order) :
    List Item :=
  if old.order_status != "cancelled" then
    items.map fun it =>
      if some it.item_id == old.item_id then
        { it with quantity := it.quantity + old.quantity_ordered,
                  status := "available" }
      else it
  else items

/-- Trigger `prevent_item_delete_if_ordered`: deleting an item aborts when
some order references it with a non-`cancelled` status. -/
def prevent_item_delete_if_ordered (orders : List Order) (it : Item) : Bool :=
  orders.any fun o => o.item_id == some it.item_id && o.order_status != "cancelled"

/-- Reasons an `INSERT INTO orders` can abort (surfaced to Python as
`sqlite3.IntegrityError`). -/
inductive InsertErr
  | selfPurchase
  | insufficientStock

/-- `INSERT INTO orders` under the v3 triggers: the two BEFORE triggers may
abort; on success the row is appended and the AFTER trigger adjusts the
item's stock. -/
def insertOrder (db : DB) (o : Order) : Except InsertErr DB :=
  if prevent_self_purchase o then .error .selfPurchase
  else if check_stock_before_order db.items o then .error .insufficientStock
  else .ok ⟨after_order_insert_update_item_stock db.items o, db.orders ++ [o]⟩

/-- One line of the JSON cart sent to `/api/place_order`: `item.get("id")`
(absent → `None`), `item.get("qty", 1)` (absent → default 1), and the name
used only in error messages. -/
structure CartLine where
  id : Option Int
  qty : Option Int
  name : String

/-- Observable outcomes of `/api/place_order` (v3). -/
inductive PlaceOutcome
  | success
  | emptyCart
  | lineFailed
  | selfPurchaseAbort
  | stockAbort
  | serverError
deriving DecidableEq

/-- The order row built by the v3 placement loop body for line `k`:
`generate_order_id()` and `generate_hashed_otp()` draw from the supply,
the seller and unit price come from the located item row, and
`price = unit price x quantity`. -/
def lineOrder (buyer k : Nat) (supply : Nat → String × Nat)
    (item_data : Item) (q : Int) : Order :=
  { order_id := generate_order_id (supply k).1, buyer_id := buyer,
    seller_id := item_data.seller_id, item_id := some item_data.item_id,
    price := item_data.price * q, quantity_ordered := q,
    payment_mode := "COD", payment_status := "pending",
    order_status := "pending",
    otp := (generate_hashed_otp (supply k).2).1,
    hashed_otp := (generate_hashed_otp (supply k).2).2 }

/-- The per-line loop body of v3 `place_order`, threading the transaction
state.  `supply k` yields the random order id and OTP draw of line `k`.
A line whose `id` is absent makes `int(None)` raise an uncaught
`TypeError` (server error); the availability/stock `SELECT` finding no row
raises the caught `ValueError`; trigger aborts surface as
`IntegrityError`. -/
def placeLines (buyer : Nat) (supply : Nat → String × Nat) :
    DB → Nat → List CartLine → Except PlaceOutcome DB
  | db, _, [] => .ok db
  | db, k, line :: rest =>
    match line.id with
    | none => .error .serverError
    | some idv =>
      match db.items.find? (fun it =>
          ((it.item_id : Int) == idv) && it.status == "available" &&
          decide (line.qty.getD 1 ≤ it.quantity)) with
      | none => .error .lineFailed
      | some item_data =>
        match insertOrder db (lineOrder buyer k supply item_data (line.qty.getD 1)) with
        | .error .selfPurchase => .error .selfPurchaseAbort
        | .error .insufficientStock => .error .stockAbort
        | .ok db2 => placeLines buyer supply db2 (k + 1) rest

/-- `/api/place_order` (v3): empty or missing cart fails fast; a truthy
non-list cart crashes while iterating (rolled back, HTTP 500); otherwise
the lines run inside one `with conn:` transaction, so any line failure
rolls the whole placement back to the initial state. -/
def place_order (db : DB) (buyer : Nat) (cart : CartJson CartLine)
    (supply : Nat → String × Nat) : PlaceOutcome × DB :=
  match cart with
  | .missing => (.emptyCart, db)
  | .malformed => (.serverError, db)
  | .lines [] => (.emptyCart, db)
  | .lines l =>
    match placeLines buyer supply db 0 l with
    | .ok db2 => (.success, db2)
    | .error e => (e, db)

/-- Observable outcomes of `/orders/cancel/<order_id>` (v3). -/
inductive CancelOutcome
  | ok
  | notFound
  | notCancellable
deriving DecidableEq

/-- `cancel_order` (v3): the requester's own order, while in a cancellable
status, is marked `cancelled` and the item restocked and re-listed. -/
def cancel_order (db : DB) (requester : Nat) (oid : String) :
    CancelOutcome × DB :=
  match db.orders.find? (fun o => o.order_id == oid && o.buyer_id == requester) with
  | none => (.notFound, db)
  | some o =>
    if o.order_status == "pending" || o.order_status == "in_transit" ||
       o.order_status == "ready_for_pickup" then
      (.ok,
       ⟨db.items.map fun it =>
          if some it.item_id == o.item_id then
            { it with quantity := it.quantity + o.quantity_ordered,
                      status := "available" }
          else it,
        db.orders.map fun p =>
          if p.order_id == oid then { p with order_status := "cancelled" } else p⟩)
    else (.notCancellable, db)

/-- Observable outcomes of `/orders/mark_received/<order_id>` (v3). -/
inductive MarkOutcome
  | ok
  | notFound
  | alreadyFinalized
deriving DecidableEq

/-- `mark_received` (v3): the buyer confirms receipt; any status outside
`completed`/`cancelled` jumps straight to `completed`, no OTP required. -/
def mark_received (db : DB) (requester : Nat) (oid : String) :
    MarkOutcome × DB :=
  match db.orders.find? (fun o => o.order_id == oid && o.buyer_id == requester) with
  | none => (.notFound, db)
  | some o =>
    if o.order_status == "completed" || o.order_status == "cancelled" then
      (.alreadyFinalized, db)
    else
      (.ok,
       ⟨db.items,
        db.orders.map fun p =>
          if p.order_id == oid then { p with order_status := "completed" } else p⟩)

/-- `admin_mark_received_by_warehouse` (v3): guarded update
`pending → in_transit`; the route always flashes success. -/
def admin_mark_received_by_warehouse (db : DB) (oid : String) : DB :=
  ⟨db.items,
   db.orders.map fun o =>
     if o.order_id == oid && o.order_status == "pending" then
       { o with order_status := "in_transit" }
     else o⟩

/-- Observable outcomes of `/admin/complete_order` (v3): a missing order or
a failed OTP check flashes an error; otherwise the route flashes success —
even when the guarded update `WHERE order_status = 'in_transit'` matched no
row. -/
inductive AdminCompleteOutcome
  | completedFlash
  | notFound
  | incorrectOtp
deriving DecidableEq

/-- `admin_complete_order` (v3): fetch the order's `hashed_otp`; on a
correct code run the guarded update `in_transit → completed` and report
success unconditionally; on a wrong code change nothing and report
failure. -/
def admin_complete_order (db : DB) (oid : String) (submitted_otp : String) :
    AdminCompleteOutcome × DB :=
  match db.orders.find? (fun o => o.order_id == oid) with
  | none => (.notFound, db)
  | some o =>
    if check_otp submitted_otp o.hashed_otp then
      (.completedFlash,
       ⟨db.items,
        db.orders.map fun p =>
          if p.order_id == oid && p.order_status == "in_transit" then
            { p with order_status := "completed" }
          else p⟩)
    else (.incorrectOtp, db)

/-- Observable outcomes of `/sell/delete/<item_id>` (v3). -/
inductive DeleteItemOutcome
  | ok
  | notFound
  | itemLocked
deriving DecidableEq

/-- `delete_listing` (v3): `DELETE FROM items WHERE item_id=? AND
seller_id=?`.  The BEFORE DELETE trigger aborts when a non-`cancelled`
order references a row being deleted (`IntegrityError`, HTTP 400); zero
deleted rows is a 404; on success the `ON DELETE SET NULL` foreign key
nulls the `item_id` of referencing orders. -/
def delete_listing (db : DB) (requester : Nat) (item_id : Nat) :
    DeleteItemOutcome × DB :=
  let hit := fun (it : Item) => it.item_id == item_id && it.seller_id == requester
  let victims := db.items.filter hit
  if victims.any (prevent_item_delete_if_ordered db.orders) then
    (.itemLocked, db)
  else if victims.isEmpty then (.notFound, db)
  else
    (.ok,
     ⟨db.items.filter (fun it => !hit it),
      db.orders.map fun o =>
        if o.item_id == some item_id then { o with item_id := none } else o⟩)

/-- An administrative `DELETE FROM orders WHERE order_id = ?` statement
(v3 exposes no route for it, but the schema's AFTER DELETE trigger defines
its effect): the row is removed and, when its status was not `cancelled`,
`after_order_delete_restock_item` releases the stock. -/
def delete_order (db : DB) (oid : String) : DB :=
  match db.orders.find? (fun o => o.order_id == oid) with
  | none => db
  | some o =>
    ⟨after_order_delete_restock_item db.items o,
     db.orders.filter fun p => !(p.order_id == oid)⟩

/-- One row of the buyer's `/orders` page (v3): the SQL selects
`o.order_id, o.price, o.order_status, o.created_at, o.otp, i.name` for the
buyer's orders joined with `items`. -/
structure OrderViewRow where
  order_id : String
  price : Int
  status : String
  otp : String
  item_name : String
deriving DecidableEq

/-- The `/orders` route (v3): the buyer's orders, inner-joined with their
items — including the stored plaintext `otp` column. -/
def orders (db : DB) (buyer : Nat) : List OrderViewRow :=
  (db.orders.filter fun o => o.buyer_id == buyer).filterMap fun o =>
    (o.item_id.bind fun i => db.items.find? (fun it => it.item_id == i)).map
      fun it => ⟨o.order_id, o.price, o.order_status, o.otp, it.name⟩

end V3

/-! ## Legacy placement path (`src/legacy/app.py`, `src/legacy/utils.py`)

The legacy schema keys items by name, has no triggers, and `place_order`
inserts one order row per cart line unconditionally, then runs two guarded
`UPDATE`s against the `items` table. -/

namespace Legacy

/-- A row of the legacy `items` table (`quantity` is nullable; the SQL
wraps it in `COALESCE`). -/
structure Item where
  name : String
  price : Int
  status : String
  quantity : Option Int
deriving DecidableEq, Repr

/-- A row of the legacy `orders` table (keyed by item name, hash only). -/
structure Order where
  order_id : String
  buyer_id : Nat
  item_name : String
  price : Int
  seller_name : String
  seller_email : String
  status : String
  hashed_otp : String
deriving DecidableEq, Repr

/-- The legacy database state. -/
structure DB where
  items : List Item
  orders : List Order
deriving DecidableEq, Repr

/-- One line of the legacy JSON cart: `{item_name, price, qty}`; missing
`item_name` is `None`, missing price defaults to 0, missing qty to 1. -/
structure CartLine where
  item_name : Option String
  price : Option Int
  qty : Option Int

/-- Observable outcomes of the legacy `/api/place_order`. -/
inductive PlaceOutcome
  | success
  | emptyCart
deriving DecidableEq

/-- The legacy per-line loop: a line with a falsy name or `qty < 1` is
skipped (`continue`); every other line inserts an order row with status
`pending`, then decrements stock only where the guarded `UPDATE` matches,
then marks any zero-or-negative-stock copy of the name `sold`. -/
def placeLines (buyer : Nat) (supply : Nat → String × Nat) :
    DB → Nat → List CartLine → DB
  | db, _, [] => db
  | db, k, line :: rest =>
    match line.item_name with
    | none => placeLines buyer supply db (k + 1) rest
    | some nm =>
      let qty := line.qty.getD 1
      if nm = "" || qty < 1 then placeLines buyer supply db (k + 1) rest
      else
        let price := line.price.getD 0
        let order_id := (supply k).1
        let hashed := (generate_hashed_otp (supply k).2).2
        let o : Order :=
          { order_id := order_id, buyer_id := buyer, item_name := nm,
            price := price, seller_name := "Warehouse",
            seller_email := "warehouse@campus.edu", status := "pending",
            hashed_otp := hashed }
        let items1 := db.items.map fun it =>
          if it.name == nm && it.status == "available" &&
             decide (qty ≤ it.quantity.getD 0) then
            { it with quantity := some (it.quantity.getD 1 - qty) }
          else it
        let items2 := items1.map fun it =>
          if it.name == nm && decide (it.quantity.getD 0 ≤ 0) then
            { it with status := "sold" }
          else it
        placeLines buyer supply ⟨items2, db.orders ++ [o]⟩ (k + 1) rest

/-- The legacy `/api/place_order`: rejects a missing, non-list or empty
cart as "Cart is empty"; otherwise processes every line and commits. -/
def place_order (db : DB) (buyer : Nat) (cart : CartJson CartLine)
    (supply : Nat → String × Nat) : PlaceOutcome × DB :=
  match cart with
  | .missing => (.emptyCart, db)
  | .malformed => (.emptyCart, db)
  | .lines [] => (.emptyCart, db)
  | .lines l => (.success, placeLines buyer supply db 0 l)

end Legacy

/-! ## v1 placement path (`src/v1/app.py`, `src/v1/utils.py`)

The v1 schema matches v3 minus the plaintext `otp` column, and its only
trigger is `after_order_insert_update_item_stock` — there is no
self-purchase block and no stock-check trigger. -/

namespace V1

/-- A row of the v1 `items` table. -/
structure Item where
  item_id : Nat
  seller_id : Nat
  name : String
  price : Int
  status : String
  quantity : Int
deriving DecidableEq, Repr

/-- A row of the v1 `orders` table (no plaintext `otp` column). -/
structure Order where
  order_id : String
  buyer_id : Nat
  seller_id : Nat
  item_id : Option Nat
  price : Int
  quantity_ordered : Int
  payment_mode : String
  payment_status : String
  order_status : String
  hashed_otp : String
deriving DecidableEq, Repr

/-- The v1 database state. -/
structure DB where
  items : List Item
  orders : List Order
deriving DecidableEq, Repr

/-- Trigger `after_order_insert_update_item_stock` (identical to v3). -/
def after_order_insert_update_item_stock (items : List Item) (o : Order) :
    List Item :=
  let items1 := items.map fun it =>
    if some it.item_id == o.item_id then
      { it with quantity := it.quantity - o.quantity_ordered }
    else it
  items1.map fun it =>
    if some it.item_id == o.item_id && decide (it.quantity ≤ 0) then
      { it with status := "sold" }
    else it

/-- Observable outcomes of the v1 `/api/place_order`. -/
inductive PlaceOutcome
  | success
  | emptyCart
  | lineFailed
  | serverError
deriving DecidableEq

/-- One line of the v1 JSON cart (`{id, qty, name}`). -/
structure CartLine where
  id : Option Int
  qty : Option Int
  name : String

/-- The v1 per-line loop: availability is checked without the quantity
condition in SQL, then `quantity < qty` is tested in Python; the insert
fires only the stock-maintenance trigger, so nothing blocks a buyer from
ordering their own item. -/
def placeLines (buyer : Nat) (payment_mode : String)
    (supply : Nat → String × Nat) :
    DB → Nat → List CartLine → Except PlaceOutcome DB
  | db, _, [] => .ok db
  | db, k, line :: rest =>
    match line.id with
    | none => .error .serverError
    | some idv =>
      let quantity_ordered := line.qty.getD 1
      match db.items.find? (fun it =>
          ((it.item_id : Int) == idv) && it.status == "available") with
      | none => .error .lineFailed
      | some item_data =>
        if item_data.quantity < quantity_ordered then .error .lineFailed
        else
          let o : Order :=
            { order_id := (supply k).1, buyer_id := buyer,
              seller_id := item_data.seller_id,
              item_id := some item_data.item_id,
              price := item_data.price * quantity_ordered,
              quantity_ordered := quantity_ordered,
              payment_mode := payment_mode, payment_status := "pending",
              order_status := "pending",
              hashed_otp := (generate_hashed_otp (supply k).2).2 }
          placeLines buyer payment_mode supply
            ⟨after_order_insert_update_item_stock db.items o,
             db.orders ++ [o]⟩ (k + 1) rest

/-- The v1 `/api/place_order`: missing, non-list or empty carts fail fast;
otherwise one transaction covers the whole cart. -/
def place_order (db : DB) (buyer : Nat) (cart : CartJson CartLine)
    (payment_mode : String) (supply : Nat → String × Nat) :
    PlaceOutcome × DB :=
  match cart with
  | .missing => (.emptyCart, db)
  | .malformed => (.emptyCart, db)
  | .lines [] => (.emptyCart, db)
  | .lines l =>
    match placeLines buyer payment_mode supply db 0 l with
    | .ok db2 => (.success, db2)
    | .error e => (e, db)

end V1

/-! ## Reachability of v3 states

One step is one route invocation of the v3 application. -/

namespace V3

/-- One invocation of a v3 operation that can touch the database. -/
inductive Step : DB → DB → Prop
  | place (db : DB) (buyer : Nat) (cart : CartJson CartLine)
      (supply : Nat → String × Nat) :
      Step db (place_order db buyer cart supply).2
  | cancel (db : DB) (requester : Nat) (oid : String) :
      Step db (cancel_order db requester oid).2
  | markReceived (db : DB) (requester : Nat) (oid : String) :
      Step db (mark_received db requester oid).2
  | adminTransit (db : DB) (oid : String) :
      Step db (admin_mark_received_by_warehouse db oid)
  | adminComplete (db : DB) (oid : String) (submitted_otp : String) :
      Step db (admin_complete_order db oid submitted_otp).2
  | deleteItem (db : DB) (requester : Nat) (item_id : Nat) :
      Step db (delete_listing db requester item_id).2
  | deleteOrder (db : DB) (oid : String) :
      Step db (delete_order db oid)

/-- No order row is a self-purchase. -/
def NoSelfPurchase (db : DB) : Prop :=
  ∀ o ∈ db.orders, o.buyer_id ≠ o.seller_id

end V3

/-! ## Generic table lemmas

SQL `UPDATE ... WHERE` is a map over the rows; `fetchone` is `find?`.
These lemmas connect the two on tables whose key column is `Nodup`. -/

/-- A row-wise update that does not disturb a predicate commutes with
`find?` for that predicate. -/
theorem find?_map_pred {α : Type} (f : α → α) (p : α → Bool) (l : List α)
    (hf : ∀ x, p (f x) = p x) :
    (l.map f).find? p = Option.map f (l.find? p) := by
  induction l with
  | nil => rfl
  | cons a t ih =>
    by_cases h : p a
    · rw [List.map_cons, List.find?_cons_of_pos _ (by rw [hf]; exact h),
        List.find?_cons_of_pos _ h]
      rfl
    · rw [List.map_cons,
        List.find?_cons_of_neg _ (by rw [hf]; exact h),
        List.find?_cons_of_neg _ h, ih]

/-- Strengthening the predicate of a successful `find?` by a condition the
found row satisfies finds the same row. -/
theorem find?_and_of_find? {α : Type} (p q : α → Bool) (l : List α) (x : α)
    (h : l.find? p = some x) (hq : q x = true) :
    l.find? (fun y => p y && q y) = some x := by
  induction l with
  | nil => simp at h
  | cons a t ih =>
    by_cases hpa : p a
    · rw [List.find?_cons_of_pos _ hpa] at h
      obtain rfl : a = x := by injection h
      exact List.find?_cons_of_pos _ (by rw [hpa, hq]; rfl)
    · rw [List.find?_cons_of_neg _ hpa] at h
      rw [List.find?_cons_of_neg]
      · exact ih h
      · simp [hpa]

/-- In a table with `Nodup` keys, every row matching a key-determined
predicate is the row `find?` returned. -/
theorem matching_eq_of_nodup {α β : Type} (key : α → β) (l : List α)
    (hnodup : (l.map key).Nodup) (p : α → Bool) (x : α)
    (h : l.find? p = some x) (hkey : ∀ y, p y = true → key y = key x) :
    ∀ y ∈ l, p y = true → y = x := by
  intro y hy hpy
  exact List.inj_on_of_nodup_map hnodup hy
    (List.mem_of_find?_eq_some h) (hkey y hpy)

/-! ## Decimal representation of the OTP draw -/

/-- `Nat.toDigitsCore` ignores the fuel as long as it exceeds the number. -/
theorem toDigitsCore_fuel_irrel :
    ∀ (f g n : Nat) (acc : List Char), n < f → n < g →
    Nat.toDigitsCore 10 f n acc = Nat.toDigitsCore 10 g n acc := by
  intro f
  induction f with
  | zero => intro g n acc hf; omega
  | succ f ih =>
    intro g n acc hf hg
    cases g with
    | zero => omega
    | succ g =>
      simp only [Nat.toDigitsCore]
      by_cases h : n / 10 = 0
      · simp [h]
      · simp only [h, if_false]
        have hn : 0 < n := by omega
        have hlt : n / 10 < n := Nat.div_lt_self hn (by omega)
        exact ih g (n / 10) _ (by omega) (by omega)

/-- One unfolding of `Nat.toDigitsCore`, with the fuel renormalised. -/
theorem toDigitsCore_step (f n : Nat) (acc : List Char) (hf : n < f) :
    Nat.toDigitsCore 10 f n acc =
      if n / 10 = 0 then Nat.digitChar (n % 10) :: acc
      else Nat.toDigitsCore 10 (n / 10 + 1) (n / 10)
        (Nat.digitChar (n % 10) :: acc) := by
  cases f with
  | zero => omega
  | succ f =>
    simp only [Nat.toDigitsCore]
    by_cases h : n / 10 = 0
    · simp [h]
    · simp only [h, if_false]
      have hn : 0 < n := by omega
      have hlt : n / 10 < n := Nat.div_lt_self hn (by omega)
      exact toDigitsCore_fuel_irrel f (n / 10 + 1) (n / 10) _ (by omega) (by omega)

/-- The decimal string of a number in `[1000, 9999]` is its four digit
characters. -/
theorem toString_four_digits (n : Nat) (h1 : 1000 ≤ n) (h2 : n ≤ 9999) :
    toString n = String.mk
      [Nat.digitChar (n / 1000), Nat.digitChar (n / 100 % 10),
       Nat.digitChar (n / 10 % 10), Nat.digitChar (n % 10)] := by
  show Nat.repr n = _
  rw [Nat.repr, Nat.toDigits]
  rw [toDigitsCore_step (n + 1) n [] (by omega)]
  rw [if_neg (by omega)]
  rw [toDigitsCore_step _ (n / 10) _ (by omega)]
  rw [if_neg (by omega)]
  rw [toDigitsCore_step _ (n / 10 / 10) _ (by omega)]
  rw [if_neg (by omega)]
  rw [toDigitsCore_step _ (n / 10 / 10 / 10) _ (by omega)]
  rw [if_pos (by omega)]
  have e3 : n / 10 / 10 / 10 % 10 = n / 1000 := by omega
  have e2 : n / 10 / 10 = n / 100 := by omega
  rw [e3, e2]
  rfl

/-- `s.data.length` is `s.length`. -/
theorem string_length_data (s : String) : s.data.length = s.length := by
  cases s
  rfl

/-- The truncated digest stored for an OTP is never the empty string. -/
theorem sha_take8_ne_empty (s : String) : (Sha256.sha256hex s).take 8 ≠ "" := by
  intro hcon
  have hd : ((Sha256.sha256hex s).take 8).data.length = 0 := by
    rw [string_length_data, hcon]
    rfl
  rw [String.data_take, List.length_take, string_length_data,
    Sha256.sha256hex_length] at hd
  omega

/-- Every decimal digit character is a digit. -/
theorem digitChar_isDigit : ∀ d : Nat, d < 10 → (Nat.digitChar d).isDigit = true := by
  decide

/-- The OTP plaintext of a draw in `[1000, 9999]` has four characters. -/
theorem otp_length (n : Nat) (h1 : 1000 ≤ n) (h2 : n ≤ 9999) :
    (toString n).length = 4 := by
  rw [toString_four_digits n h1 h2]
  rfl

/-- The OTP plaintext of a draw in `[1000, 9999]` is all digits. -/
theorem otp_digits (n : Nat) (h1 : 1000 ≤ n) (h2 : n ≤ 9999) :
    ∀ c ∈ (toString n).data, c.isDigit = true := by
  rw [toString_four_digits n h1 h2]
  intro c hc
  simp only [String.mk, List.mem_cons, List.not_mem_nil, or_false] at hc
  rcases hc with rfl | rfl | rfl | rfl
  · exact digitChar_isDigit _ (by omega)
  · exact digitChar_isDigit _ (by omega)
  · exact digitChar_isDigit _ (by omega)
  · exact digitChar_isDigit _ (by omega)

/-- C6: OTP issue/verify contract.  For a draw `n` of
`random.randint(1000, 9999)`: the issued plaintext is the 4-character
decimal text of `n` (all digits); the stored hash is the SHA-256 hex
digest of that text truncated to 8 characters; `check_otp` fails closed on
an empty (or missing, which Python treats the same) submitted code or
stored hash, otherwise succeeds exactly when the recomputed truncated
digest matches the stored hash; and every issued pair verifies. -/
theorem c6_otp_issue_verify_contract (n : Nat) (h1 : 1000 ≤ n) (h2 : n ≤ 9999) :
    (generate_hashed_otp n).1.length = 4 ∧
    (∀ c ∈ (generate_hashed_otp n).1.data, c.isDigit = true) ∧
    (generate_hashed_otp n).2 =
      (Sha256.sha256hex (generate_hashed_otp n).1).take 8 ∧
    (∀ stored, check_otp "" stored = false) ∧
    (∀ submitted, check_otp submitted "" = false) ∧
    (∀ submitted stored, submitted ≠ "" → stored ≠ "" →
      (check_otp submitted stored = true ↔
        (Sha256.sha256hex submitted).take 8 = stored)) ∧
    check_otp (generate_hashed_otp n).1 (generate_hashed_otp n).2 = true := by
  simp only [generate_hashed_otp]
  have hne : toString n ≠ "" := by
    intro hcon
    have := otp_length n h1 h2
    rw [hcon] at this
    simp [String.length] at this
  have hh : (Sha256.sha256hex (toString n)).take 8 ≠ "" :=
    sha_take8_ne_empty (toString n)
  refine ⟨otp_length n h1 h2, otp_digits n h1 h2, trivial, ?_, ?_, ?_, ?_⟩
  · intro stored
    simp [check_otp]
  · intro submitted
    simp [check_otp]
  · intro submitted stored hs ht
    simp [check_otp, hs, ht]
  · unfold check_otp
    rw [if_neg]
    · exact beq_self_eq_true _
    · simp [hne, hh]

/-- Witness for C6 at the concrete draw 1234. -/
theorem c6_otp_issue_verify_contract_witness :
    (1000 ≤ 1234 ∧ 1234 ≤ 9999) ∧
    ((generate_hashed_otp 1234).1.length = 4 ∧
      check_otp (generate_hashed_otp 1234).1 (generate_hashed_otp 1234).2 = true) :=
  ⟨⟨by decide, by decide⟩,
   (c6_otp_issue_verify_contract 1234 (by decide) (by decide)).1,
   (c6_otp_issue_verify_contract 1234 (by decide) (by decide)).2.2.2.2.2.2⟩

/-! ## Concrete fixtures for witnesses and counterexamples -/

/-- A deterministic stand-in for the random supplies: line `k` gets order
id `ORD-k` and OTP draw 1234. -/
def fixedSupply : Nat → String × Nat := fun k => ("ORD-" ++ toString k, 1234)

/-- Three v3 items sold by user 1 with stocks 5, 1 and 2. -/
def v3db3 : V3.DB :=
  ⟨[⟨1, 1, "Laptop", 600, "available", 5⟩,
    ⟨2, 1, "Phone", 300, "available", 1⟩,
    ⟨3, 1, "Desk", 100, "available", 2⟩], []⟩

/-- The spec's 3-line cart whose second line is out of stock (wants 2 of
item 2, which has stock 1). -/
def cart3 : List V3.CartLine :=
  [⟨some 1, some 1, "Laptop"⟩, ⟨some 2, some 2, "Phone"⟩, ⟨some 3, some 1, "Desk"⟩]

/-- The same inventory in the legacy (name-keyed) schema. -/
def legacydb3 : Legacy.DB :=
  ⟨[⟨"Laptop", 600, "available", some 5⟩,
    ⟨"Phone", 300, "available", some 1⟩,
    ⟨"Desk", 100, "available", some 2⟩], []⟩

/-- The same 3-line cart in the legacy shape. -/
def legacycart3 : List Legacy.CartLine :=
  [⟨some "Laptop", some 600, some 1⟩, ⟨some "Phone", some 300, some 2⟩,
   ⟨some "Desk", some 100, some 1⟩]

/-! ## C1 — whole-cart atomicity of placement -/

/-- C1 (amended to v3): whenever v3 `place_order` does not succeed — in
particular when some line fails validation (unavailable item, insufficient
stock, self-purchase) — the transaction rolls back and the returned state
is exactly the initial one: no order row is created and no item's quantity
or status changes, including for lines processed before the failing
one. -/
theorem c1_v3_line_failure_rolls_back_whole_cart (db : V3.DB) (buyer : Nat)
    (cart : CartJson V3.CartLine) (supply : Nat → String × Nat)
    (h : (V3.place_order db buyer cart supply).1 ≠ V3.PlaceOutcome.success) :
    (V3.place_order db buyer cart supply).2 = db := by
  cases cart with
  | missing => rfl
  | malformed => rfl
  | lines l =>
    cases l with
    | nil => rfl
    | cons a t =>
      cases hres : V3.placeLines buyer supply db 0 (a :: t) with
      | error e => simp [V3.place_order, hres]
      | ok db2 =>
        exact absurd (by simp [V3.place_order, hres]) h

/-- Witness for C1: the spec's 3-line scenario on v3 — line 2 is out of
stock, the placement fails, and the database is returned untouched. -/
theorem c1_v3_line_failure_rolls_back_whole_cart_witness :
    (V3.place_order v3db3 2 (.lines cart3) fixedSupply).1 ≠
      V3.PlaceOutcome.success ∧
    (V3.place_order v3db3 2 (.lines cart3) fixedSupply).2 = v3db3 :=
  ⟨by decide,
   c1_v3_line_failure_rolls_back_whole_cart v3db3 2 (.lines cart3) fixedSupply
     (by decide)⟩

/-- C1 counterexample: the legacy `place_order`, on the very 3-line cart
the claim describes (line 2 out of stock), still creates three order rows
— one even for the failing line — and decrements the stock of lines 1 and
3; the claim's "creates no order rows and leaves every item unchanged" is
false on the legacy path. -/
theorem c1_counterexample_legacy_inserts_despite_failing_line :
    (Legacy.place_order legacydb3 7 (.lines legacycart3) fixedSupply).1 =
      Legacy.PlaceOutcome.success ∧
    (Legacy.place_order legacydb3 7 (.lines legacycart3) fixedSupply).2.orders.length = 3 ∧
    ((Legacy.place_order legacydb3 7 (.lines legacycart3) fixedSupply).2.items.map
      Legacy.Item.quantity) = [some 4, some 1, some 1] := by
  refine ⟨rfl, rfl, by decide⟩

/-! ## Properties of the v3 insert path -/

/-- A successful v3 order insert appends the row and runs the stock
trigger; in particular the self-purchase trigger did not fire. -/
theorem V3.insertOrder_ok (db : V3.DB) (o : V3.Order) (db2 : V3.DB)
    (h : V3.insertOrder db o = .ok db2) :
    db2 = ⟨V3.after_order_insert_update_item_stock db.items o,
           db.orders ++ [o]⟩ ∧
    V3.prevent_self_purchase o = false := by
  unfold V3.insertOrder at h
  by_cases h1 : V3.prevent_self_purchase o
  · simp [h1] at h
  · by_cases h2 : V3.check_stock_before_order db.items o
    · simp [h1, h2] at h
    · simp only [h1, h2, if_false, Bool.false_eq_true, if_neg] at h
      refine ⟨?_, by simpa using h1⟩
      injection h with h
      exact h.symm

/-- Orders present after a successful run of the v3 per-line loop either
predate it or were built by it: buyer as given, not a self-purchase,
status `pending`, and OTP plaintext and hash drawn from the supply. -/
theorem V3.placeLines_new_orders (buyer : Nat) (supply : Nat → String × Nat) :
    ∀ (l : List V3.CartLine) (db : V3.DB) (k : Nat) (db2 : V3.DB),
    V3.placeLines buyer supply db k l = .ok db2 →
    ∀ o ∈ db2.orders, o ∈ db.orders ∨
      (o.buyer_id = buyer ∧ o.buyer_id ≠ o.seller_id ∧
       o.order_status = "pending" ∧
       ∃ j, o.otp = (generate_hashed_otp (supply j).2).1 ∧
            o.hashed_otp = (generate_hashed_otp (supply j).2).2) := by
  intro l
  induction l with
  | nil =>
    intro db k db2 h o ho
    rw [V3.placeLines] at h
    injection h with h
    exact .inl (h ▸ ho)
  | cons line rest ih =>
    intro db k db2 h o ho
    rw [V3.placeLines] at h
    split at h
    · exact absurd h (by simp)
    · split at h
      · exact absurd h (by simp)
      · split at h
        · exact absurd h (by simp)
        · exact absurd h (by simp)
        · next db' hins =>
          rcases ih db' (k + 1) db2 h o ho with hmem | hnew
          · obtain ⟨hdb', hnsp⟩ := V3.insertOrder_ok _ _ _ hins
            rw [hdb'] at hmem
            rcases List.mem_append.mp hmem with h1 | h2
            · exact .inl h1
            · right
              obtain rfl := List.mem_singleton.mp h2
              simp only [V3.prevent_self_purchase, V3.lineOrder,
                beq_eq_false_iff_ne] at hnsp
              simp only [V3.lineOrder]
              exact ⟨trivial, hnsp, trivial, k, rfl, rfl⟩
          · exact .inr hnew

/-- Orders survive every non-placement v3 operation with their
`buyer_id`/`seller_id` pair intact. -/
theorem V3.noself_map (l : List V3.Order) (f : V3.Order → V3.Order)
    (hf : ∀ o, (f o).buyer_id = o.buyer_id ∧ (f o).seller_id = o.seller_id)
    (h : ∀ o ∈ l, o.buyer_id ≠ o.seller_id) :
    ∀ o ∈ l.map f, o.buyer_id ≠ o.seller_id := by
  intro o ho
  rcases List.mem_map.mp ho with ⟨p, hp, rfl⟩
  rw [(hf p).1, (hf p).2]
  exact h p hp

/-! ## C3 — no order row is ever a self-purchase (v3) -/

/-- C3 (amended to v3): every v3 operation preserves the invariant that no
order row has `buyer_id = seller_id` — placement rejects self-purchase
lines through the `prevent_self_purchase` trigger, and every other
operation only rewrites `order_status` or nulls `item_id`.  (The v1
placement path, which the claim also covers, has no such guard; see the
counterexample.) -/
theorem c3_v3_no_self_purchase_invariant (db db2 : V3.DB)
    (hstep : V3.Step db db2) (hinv : V3.NoSelfPurchase db) :
    V3.NoSelfPurchase db2 := by
  cases hstep with
  | place buyer cart supply =>
    intro o ho
    cases cart with
    | missing => exact hinv o ho
    | malformed => exact hinv o ho
    | lines l =>
      cases l with
      | nil => exact hinv o ho
      | cons a t =>
        rcases hres : V3.placeLines buyer supply db 0 (a :: t) with e | dbv
        · rw [show (V3.place_order db buyer (.lines (a :: t)) supply).2 = db by
            simp [V3.place_order, hres]] at ho
          exact hinv o ho
        · rw [show (V3.place_order db buyer (.lines (a :: t)) supply).2 = dbv by
            simp [V3.place_order, hres]] at ho
          rcases V3.placeLines_new_orders buyer supply (a :: t) db 0 dbv hres o ho with
            hold | ⟨hb, hne, _⟩
          · exact hinv o hold
          · exact hne
  | cancel requester oid =>
    unfold V3.cancel_order
    rcases hf : db.orders.find? (fun o => o.order_id == oid && o.buyer_id == requester) with _ | o
    · simp only [hf]
      exact hinv
    · by_cases hs : (o.order_status == "pending" || o.order_status == "in_transit" ||
        o.order_status == "ready_for_pickup") = true
      · simp only [hf, hs, if_true]
        exact V3.noself_map _ _ (fun p => by by_cases hp : (p.order_id == oid) = true <;>
          simp [hp]) hinv
      · simp only [hf, Bool.not_eq_true] at hs
        simp only [hf, hs]
        exact hinv
  | markReceived requester oid =>
    unfold V3.mark_received
    rcases hf : db.orders.find? (fun o => o.order_id == oid && o.buyer_id == requester) with _ | o
    · simp only [hf]
      exact hinv
    · by_cases hs : (o.order_status == "completed" || o.order_status == "cancelled") = true
      · simp only [hf, hs, if_true]
        exact hinv
      · simp only [hf, Bool.not_eq_true] at hs
        simp only [hf, hs]
        exact V3.noself_map _ _ (fun p => by by_cases hp : (p.order_id == oid) = true <;>
          simp [hp]) hinv
  | adminTransit oid =>
    unfold V3.admin_mark_received_by_warehouse
    exact V3.noself_map _ _ (fun p => by
      by_cases hp : (p.order_id == oid && p.order_status == "pending") = true <;>
        simp [hp]) hinv
  | adminComplete oid submitted_otp =>
    unfold V3.admin_complete_order
    rcases hf : db.orders.find? (fun o => o.order_id == oid) with _ | o
    · simp only [hf]
      exact hinv
    · by_cases hk : check_otp submitted_otp o.hashed_otp = true
      · simp only [hf, hk, if_true]
        exact V3.noself_map _ _ (fun p => by
          by_cases hp : (p.order_id == oid && p.order_status == "in_transit") = true <;>
            simp [hp]) hinv
      · simp only [hf, Bool.not_eq_true] at hk
        simp only [hf, hk]
        exact hinv
  | deleteItem requester item_id =>
    unfold V3.delete_listing
    by_cases h1 : ((db.items.filter fun it => it.item_id == item_id &&
        it.seller_id == requester).any (V3.prevent_item_delete_if_ordered db.orders)) = true
    · simp only [h1, if_true]
      exact hinv
    · simp only [Bool.not_eq_true] at h1
      simp only [h1]
      by_cases h2 : ((db.items.filter fun it => it.item_id == item_id &&
          it.seller_id == requester).isEmpty) = true
      · simp only [h2, if_true]
        exact hinv
      · simp only [Bool.not_eq_true] at h2
        simp only [h2, Bool.false_eq_true, if_false]
        exact V3.noself_map _ _ (fun p => by
          by_cases hp : (p.item_id == some item_id) = true <;> simp [hp]) hinv
  | deleteOrder oid =>
    unfold V3.delete_order
    rcases hf : db.orders.find? (fun o => o.order_id == oid) with _ | o
    · simp only [hf]
      exact hinv
    · simp only [hf]
      intro p hp
      exact hinv p (List.mem_of_mem_filter hp)

/-- Witness for C3: a fresh store, one successful v3 placement step, and
the invariant still holds. -/
theorem c3_v3_no_self_purchase_invariant_witness :
    V3.NoSelfPurchase v3db3 ∧
    V3.NoSelfPurchase
      (V3.place_order v3db3 2 (.lines [⟨some 1, some 1, "Laptop"⟩]) fixedSupply).2 :=
  ⟨fun o ho => absurd ho (by simp [v3db3]),
   c3_v3_no_self_purchase_invariant v3db3 _
     (V3.Step.place v3db3 2 (.lines [⟨some 1, some 1, "Laptop"⟩]) fixedSupply)
     (fun o ho => absurd ho (by simp [v3db3]))⟩

/-- A v1 item whose seller is user 5. -/
def v1db : V1.DB := ⟨[⟨1, 5, "Mirror", 50, "available", 2⟩], []⟩

/-- C3 counterexample: the v1 placement path — which the claim also draws
on — has neither an application-level check nor the
`prevent_self_purchase` trigger, so user 5 successfully buys their own
item and an order row with `buyer_id = seller_id = 5` is created. -/
theorem c3_counterexample_v1_self_purchase_order_created :
    (V1.place_order v1db 5 (.lines [⟨some 1, some 1, "Mirror"⟩]) "COD" fixedSupply).1 =
      V1.PlaceOutcome.success ∧
    ((V1.place_order v1db 5 (.lines [⟨some 1, some 1, "Mirror"⟩]) "COD"
        fixedSupply).2.orders.map fun o => (o.buyer_id, o.seller_id)) = [(5, 5)] := by
  exact ⟨by decide, by decide⟩

/-! ## C10 — plaintext delivery code and stored state (v3) -/

/-- C10 (amended): the plaintext code is returned for the buyer, but v3
also persists it: every order row a successful v3 placement adds stores
the plaintext OTP in the `otp` column alongside the 8-character hash, both
drawn from the same supply — the stored record does not contain only the
verification hash. -/
theorem c10_v3_order_rows_persist_plaintext_otp (db db2 : V3.DB) (buyer : Nat)
    (cart : CartJson V3.CartLine) (supply : Nat → String × Nat)
    (h : V3.place_order db buyer cart supply = (V3.PlaceOutcome.success, db2)) :
    ∀ o ∈ db2.orders, o ∈ db.orders ∨
      ∃ j, o.otp = (generate_hashed_otp (supply j).2).1 ∧
           o.hashed_otp = (generate_hashed_otp (supply j).2).2 := by
  intro o ho
  cases cart with
  | missing =>
    obtain ⟨-, rfl⟩ := Prod.mk.injEq .. ▸ (by exact h : (V3.PlaceOutcome.emptyCart, db) = (V3.PlaceOutcome.success, db2))
    exact .inl ho
  | malformed =>
    obtain ⟨-, rfl⟩ := Prod.mk.injEq .. ▸ (by exact h : (V3.PlaceOutcome.serverError, db) = (V3.PlaceOutcome.success, db2))
    exact .inl ho
  | lines l =>
    cases l with
    | nil =>
      obtain ⟨-, rfl⟩ := Prod.mk.injEq .. ▸ (by exact h : (V3.PlaceOutcome.emptyCart, db) = (V3.PlaceOutcome.success, db2))
      exact .inl ho
    | cons a t =>
      rcases hres : V3.placeLines buyer supply db 0 (a :: t) with e | dbv
      · rw [show V3.place_order db buyer (.lines (a :: t)) supply = (e, db) by
          simp [V3.place_order, hres]] at h
        obtain ⟨-, rfl⟩ := Prod.mk.injEq .. ▸ h
        exact .inl ho
      · rw [show V3.place_order db buyer (.lines (a :: t)) supply = (.success, dbv) by
          simp [V3.place_order, hres]] at h
        obtain ⟨-, rfl⟩ := Prod.mk.injEq .. ▸ h
        rcases V3.placeLines_new_orders buyer supply (a :: t) db 0 dbv hres o ho with
          hold | ⟨-, -, -, j, hotp, hhash⟩
        · exact .inl hold
        · exact .inr ⟨j, hotp, hhash⟩

/-- A v3 item matching the spec's scenario seed. -/
def c10db : V3.DB := ⟨[⟨5, 1, "Lamp", 600, "available", 4⟩], []⟩

/-- Witness for C10's amended statement: a concrete successful placement,
whose one new order stores the plaintext of draw 1234 alongside its
hash. -/
theorem c10_v3_order_rows_persist_plaintext_otp_witness :
    V3.place_order c10db 3 (.lines [⟨some 5, some 1, "Lamp"⟩]) fixedSupply =
      (V3.PlaceOutcome.success,
       (V3.place_order c10db 3 (.lines [⟨some 5, some 1, "Lamp"⟩]) fixedSupply).2) ∧
    ∀ o ∈ (V3.place_order c10db 3 (.lines [⟨some 5, some 1, "Lamp"⟩]) fixedSupply).2.orders,
      o ∈ c10db.orders ∨
      ∃ j, o.otp = (generate_hashed_otp (fixedSupply j).2).1 ∧
           o.hashed_otp = (generate_hashed_otp (fixedSupply j).2).2 :=
  ⟨by decide,
   c10_v3_order_rows_persist_plaintext_otp c10db
     (V3.place_order c10db 3 (.lines [⟨some 5, some 1, "Lamp"⟩]) fixedSupply).2
     3 (.lines [⟨some 5, some 1, "Lamp"⟩]) fixedSupply (by decide)⟩

/-- C10 counterexample: after the concrete placement the stored order row
contains the plaintext code `1234` — not only the hash — and the buyer's
`/orders` view returns that plaintext again, so the code is re-derivable
from stored state. -/
theorem c10_counterexample_plaintext_redisplayed_in_orders_view :
    (V3.place_order c10db 3 (.lines [⟨some 5, some 1, "Lamp"⟩]) fixedSupply).1 =
      V3.PlaceOutcome.success ∧
    ((V3.place_order c10db 3 (.lines [⟨some 5, some 1, "Lamp"⟩]) fixedSupply).2.orders.map
      V3.Order.otp) = ["1234"] ∧
    ((V3.orders (V3.place_order c10db 3 (.lines [⟨some 5, some 1, "Lamp"⟩]) fixedSupply).2
        3).map V3.OrderViewRow.otp) = ["1234"] := by
  exact ⟨by decide, by decide, by decide⟩

/-! ## C7 — empty or malformed carts -/

/-- C7 (amended): a missing or empty cart fails fast with the EmptyCart
error and no mutation on both the v3 and legacy paths, and legacy also
maps a malformed (truthy non-list) cart to EmptyCart; v3, however, lets a
malformed cart crash while iterating — still mutating nothing, but
surfacing an unhandled server error instead of EmptyCart. -/
theorem c7_empty_cart_fails_fast_without_mutation :
    (∀ (db : V3.DB) (buyer : Nat) (supply : Nat → String × Nat),
      V3.place_order db buyer .missing supply = (V3.PlaceOutcome.emptyCart, db) ∧
      V3.place_order db buyer (.lines []) supply = (V3.PlaceOutcome.emptyCart, db) ∧
      V3.place_order db buyer .malformed supply = (V3.PlaceOutcome.serverError, db)) ∧
    (∀ (db : Legacy.DB) (buyer : Nat) (supply : Nat → String × Nat),
      Legacy.place_order db buyer .missing supply = (Legacy.PlaceOutcome.emptyCart, db) ∧
      Legacy.place_order db buyer .malformed supply = (Legacy.PlaceOutcome.emptyCart, db) ∧
      Legacy.place_order db buyer (.lines []) supply = (Legacy.PlaceOutcome.emptyCart, db)) :=
  ⟨fun _ _ _ => ⟨rfl, rfl, rfl⟩, fun _ _ _ => ⟨rfl, rfl, rfl⟩⟩

/-- C7 counterexample: on v3 a malformed (truthy non-list) cart does not
produce the EmptyCart error the claim requires — it escapes as a server
error (with the store untouched). -/
theorem c7_counterexample_v3_malformed_cart_is_not_empty_cart_error :
    (V3.place_order v3db3 2 .malformed fixedSupply).1 ≠ V3.PlaceOutcome.emptyCart ∧
    (V3.place_order v3db3 2 .malformed fixedSupply).1 = V3.PlaceOutcome.serverError ∧
    (V3.place_order v3db3 2 .malformed fixedSupply).2 = v3db3 := by
  exact ⟨by decide, by decide, by decide⟩

/-! ## C9 — positive order quantities -/

/-- A v3 item with stock 5, sold by user 1. -/
def c9db : V3.DB := ⟨[⟨1, 1, "Gadget", 100, "available", 5⟩], []⟩

/-- C9 failing input: v3 `place_order` happily creates an order with
`quantity_ordered = -3` (the availability `SELECT` checks
`quantity >= -3`, which holds, and the stock trigger checks `5 < -3`,
which fails to fire) — and the stock trigger then INCREASES the item's
stock from 5 to 8.  Legacy guarded `qty < 1` lines away; v3 dropped the
guard. -/
theorem c9_failing_input_negative_quantity_order_created :
    (V3.place_order c9db 2 (.lines [⟨some 1, some (-3), "Gadget"⟩]) fixedSupply).1 =
      V3.PlaceOutcome.success ∧
    ((V3.place_order c9db 2 (.lines [⟨some 1, some (-3), "Gadget"⟩]) fixedSupply).2.orders.map
      V3.Order.quantity_ordered) = [-3] ∧
    ((V3.place_order c9db 2 (.lines [⟨some 1, some (-3), "Gadget"⟩]) fixedSupply).2.items.map
      V3.Item.quantity) = [8] := by
  exact ⟨by decide, by decide, by decide⟩

/-! ## C4 — the OTP gate of `admin_complete_order` (v3) -/

/-- C4 (amended): for an order fetched by id, a wrong code changes nothing
and reports failure; a correct code on an `in_transit` order flips exactly
that order to `completed` (items untouched); but a correct code on an
order in any other status — e.g. re-submission after completion, or a
cancelled order — leaves the whole state unchanged while still reporting
success: the guarded `UPDATE` matches no row and no `InvalidTransition`
failure is surfaced. -/
theorem c4_v3_admin_complete_otp_gate (db : V3.DB) (oid code : String)
    (o : V3.Order)
    (hnodup : (db.orders.map V3.Order.order_id).Nodup)
    (hfind : db.orders.find? (fun p => p.order_id == oid) = some o) :
    (check_otp code o.hashed_otp = false →
      V3.admin_complete_order db oid code =
        (V3.AdminCompleteOutcome.incorrectOtp, db)) ∧
    (check_otp code o.hashed_otp = true → o.order_status = "in_transit" →
      (V3.admin_complete_order db oid code).1 =
        V3.AdminCompleteOutcome.completedFlash ∧
      (V3.admin_complete_order db oid code).2.orders.find?
          (fun p => p.order_id == oid) =
        some { o with order_status := "completed" } ∧
      (V3.admin_complete_order db oid code).2.items = db.items) ∧
    (check_otp code o.hashed_otp = true → o.order_status ≠ "in_transit" →
      V3.admin_complete_order db oid code =
        (V3.AdminCompleteOutcome.completedFlash, db)) := by
  have hoid : o.order_id = oid := by
    have := List.find?_some hfind
    simpa using this
  refine ⟨?_, ?_, ?_⟩
  · intro hwrong
    unfold V3.admin_complete_order
    simp only [hfind, hwrong, Bool.false_eq_true, if_false]
  · intro hcorrect hstat
    unfold V3.admin_complete_order
    simp only [hfind, hcorrect, if_true]
    refine ⟨trivial, ?_, trivial⟩
    rw [find?_map_pred _ _ _ (fun p => by
      by_cases hp : (p.order_id == oid && p.order_status == "in_transit") = true <;>
        simp [hp]), hfind]
    simp [hoid, hstat]
  · intro hcorrect hstat
    unfold V3.admin_complete_order
    simp only [hfind, hcorrect, if_true]
    have hmap : (db.orders.map fun p =>
        if (p.order_id == oid && p.order_status == "in_transit") = true then
          { p with order_status := "completed" } else p) = db.orders := by
      have hall := matching_eq_of_nodup V3.Order.order_id db.orders hnodup
        (fun p => p.order_id == oid) o hfind
        (fun y hy => by
          have h1 : y.order_id = oid := by simpa using hy
          rw [h1, hoid])
      have : ∀ p ∈ db.orders, (if (p.order_id == oid &&
          p.order_status == "in_transit") = true then
            { p with order_status := "completed" } else p) = p := by
        intro p hp
        by_cases hk : (p.order_id == oid) = true
        · obtain rfl := hall p hp hk
          rw [if_neg]
          simp [hstat]
        · rw [if_neg]
          simp [hk]
      rw [List.map_congr_left this]
      exact List.map_id db.orders
    rw [hmap]

/-- A v3 order sitting `in_transit`, with the hash of code 1234. -/
def c4order : V3.Order :=
  ⟨"ORD-X", 3, 1, some 5, 600, 1, "COD", "pending", "in_transit", "1234",
   "03ac6742"⟩

/-- A store holding only `c4order`. -/
def c4db : V3.DB := ⟨[⟨5, 1, "Lamp", 600, "available", 3⟩], [c4order]⟩

/-- Witness for C4: wrong code 9999 fails and changes nothing; correct
code 1234 completes the in-transit order. -/
theorem c4_v3_admin_complete_otp_gate_witness :
    V3.admin_complete_order c4db "ORD-X" "9999" =
      (V3.AdminCompleteOutcome.incorrectOtp, c4db) ∧
    (V3.admin_complete_order c4db "ORD-X" "1234").1 =
      V3.AdminCompleteOutcome.completedFlash ∧
    (V3.admin_complete_order c4db "ORD-X" "1234").2.orders.find?
        (fun p => p.order_id == "ORD-X") =
      some { c4order with order_status := "completed" } :=
  ⟨(c4_v3_admin_complete_otp_gate c4db "ORD-X" "9999" c4order (by decide)
      (by decide)).1 (by decide),
   ((c4_v3_admin_complete_otp_gate c4db "ORD-X" "1234" c4order (by decide)
      (by decide)).2.1 (by decide) (by decide)).1,
   ((c4_v3_admin_complete_otp_gate c4db "ORD-X" "1234" c4order (by decide)
      (by decide)).2.1 (by decide) (by decide)).2.1⟩

/-- The same order, already completed. -/
def c4dbDone : V3.DB :=
  ⟨[⟨5, 1, "Lamp", 600, "available", 3⟩],
   [{ c4order with order_status := "completed" }]⟩

/-- C4 counterexample: re-submitting the correct code after completion
does NOT fail with InvalidTransition — the route reports success (the
guarded update simply matches no row); only the state-unchanged half of
the claim holds. -/
theorem c4_counterexample_resubmission_reports_success :
    (V3.admin_complete_order c4dbDone "ORD-X" "1234").1 =
      V3.AdminCompleteOutcome.completedFlash ∧
    (V3.admin_complete_order c4dbDone "ORD-X" "1234").1 ≠
      V3.AdminCompleteOutcome.incorrectOtp ∧
    (V3.admin_complete_order c4dbDone "ORD-X" "1234").2 = c4dbDone := by
  exact ⟨by decide, by decide, by decide⟩

/-! ## C8 — delete lock and restock-on-delete (v3) -/

/-- C8: deleting an item the requester sells fails with ItemLocked (state
untouched) while any non-cancelled order references it; once every
referencing order is cancelled the deletion goes through, removing the
rows; and an administrative delete of a non-cancelled order row releases
its quantity back to the item and re-lists it as `available`. -/
theorem c8_delete_lock_and_restock (db : V3.DB) (requester i : Nat)
    (oid : String) (o : V3.Order) (itm : V3.Item) :
    ((∃ it ∈ db.items, (it.item_id == i && it.seller_id == requester) = true) →
     (∃ p ∈ db.orders, p.item_id = some i ∧ p.order_status ≠ "cancelled") →
     V3.delete_listing db requester i = (V3.DeleteItemOutcome.itemLocked, db)) ∧
    ((∃ it ∈ db.items, (it.item_id == i && it.seller_id == requester) = true) →
     (∀ p ∈ db.orders, p.item_id = some i → p.order_status = "cancelled") →
     (V3.delete_listing db requester i).1 = V3.DeleteItemOutcome.ok ∧
     (V3.delete_listing db requester i).2.items =
       db.items.filter (fun it => !(it.item_id == i && it.seller_id == requester))) ∧
    (db.orders.find? (fun p => p.order_id == oid) = some o →
     o.order_status ≠ "cancelled" → o.item_id = some i →
     db.items.find? (fun it => it.item_id == i) = some itm →
     (V3.delete_order db oid).items.find? (fun it => it.item_id == i) =
       some { itm with quantity := itm.quantity + o.quantity_ordered,
                       status := "available" } ∧
     (V3.delete_order db oid).orders =
       db.orders.filter (fun p => !(p.order_id == oid))) := by
  refine ⟨?_, ?_, ?_⟩
  · rintro ⟨v, hv, hvp⟩ ⟨p, hp, hpi, hps⟩
    have hvi : v.item_id = i := by
      have := (Bool.and_eq_true _ _ ▸ hvp).1
      simpa using this
    have hcond : ((db.items.filter fun it =>
        it.item_id == i && it.seller_id == requester).any
        (V3.prevent_item_delete_if_ordered db.orders)) = true := by
      apply List.any_eq_true.mpr
      refine ⟨v, List.mem_filter.mpr ⟨hv, hvp⟩, ?_⟩
      unfold V3.prevent_item_delete_if_ordered
      apply List.any_eq_true.mpr
      exact ⟨p, hp, by simp [hpi, hvi, hps]⟩
    unfold V3.delete_listing
    simp only [hcond, if_true]
  · rintro ⟨v, hv, hvp⟩ hall
    have hmem : v ∈ db.items.filter (fun it =>
        it.item_id == i && it.seller_id == requester) :=
      List.mem_filter.mpr ⟨hv, hvp⟩
    have hcond : ((db.items.filter fun it =>
        it.item_id == i && it.seller_id == requester).any
        (V3.prevent_item_delete_if_ordered db.orders)) = false := by
      apply List.any_eq_false.mpr
      intro w hw
      have hwi : w.item_id = i := by
        have := (Bool.and_eq_true _ _ ▸ (List.mem_filter.mp hw).2).1
        simpa using this
      intro hcon
      unfold V3.prevent_item_delete_if_ordered at hcon
      rcases List.any_eq_true.mp hcon with ⟨p, hp, hpcond⟩
      rw [Bool.and_eq_true] at hpcond
      obtain ⟨hpi, hps⟩ := hpcond
      have hpi2 : p.item_id = some i := by
        rw [hwi] at hpi
        simpa using hpi
      rw [hall p hp hpi2] at hps
      simp at hps
    have hne : ((db.items.filter fun it =>
        it.item_id == i && it.seller_id == requester).isEmpty) = false :=
      List.isEmpty_eq_false.mpr (List.ne_nil_of_mem hmem)
    unfold V3.delete_listing
    simp only [hcond, hne, Bool.false_eq_true, if_false]
    exact ⟨trivial, trivial⟩
  · intro hfindO hnc hitem hfindI
    unfold V3.delete_order
    simp only [hfindO]
    refine ⟨?_, trivial⟩
    unfold V3.after_order_delete_restock_item
    rw [if_pos (by simp [bne_iff_ne, hnc])]
    rw [find?_map_pred _ _ _ (fun it => by
      by_cases hit : (some it.item_id == o.item_id) = true <;> simp [hit]), hfindI]
    have hii : itm.item_id = i := by
      have := List.find?_some hfindI
      simpa using this
    simp [hitem, hii]

/-- A v3 item sold by user 2. -/
def c8item : V3.Item := ⟨7, 2, "Chair", 150, "available", 3⟩

/-- A pending order of one chair by user 4. -/
def c8order : V3.Order :=
  ⟨"ORD-P", 4, 2, some 7, 150, 1, "COD", "pending", "pending", "1111", "aaaaaaaa"⟩

/-- Store where the chair has a pending (non-cancelled) order. -/
def c8dbLocked : V3.DB := ⟨[c8item], [c8order]⟩

/-- Store where the chair's only order is cancelled. -/
def c8dbFree : V3.DB :=
  ⟨[c8item], [{ c8order with order_status := "cancelled" }]⟩

/-- Witness for C8: the locked store rejects the deletion unchanged, the
freed store deletes the item, and deleting the pending order restocks the
chair from 3 to 4 and re-lists it. -/
theorem c8_delete_lock_and_restock_witness :
    V3.delete_listing c8dbLocked 2 7 = (V3.DeleteItemOutcome.itemLocked, c8dbLocked) ∧
    (V3.delete_listing c8dbFree 2 7).1 = V3.DeleteItemOutcome.ok ∧
    (V3.delete_order c8dbLocked "ORD-P").items.find? (fun it => it.item_id == 7) =
      some { c8item with quantity := 4, status := "available" } :=
  ⟨(c8_delete_lock_and_restock c8dbLocked 2 7 "ORD-P" c8order c8item).1
     (by decide) (by decide),
   ((c8_delete_lock_and_restock c8dbFree 2 7 "ORD-P" c8order c8item).2.1
     (by decide) (by decide)).1,
   ((c8_delete_lock_and_restock c8dbLocked 2 7 "ORD-P" c8order c8item).2.2
     (by decide) (by decide) (by decide) (by decide)).1⟩

/-! ## Per-line semantics of v3 placement -/

/-- Integer casts preserve `Nat` boolean equality. -/
theorem natCast_beq_natCast (a b : Nat) : (((a : Int)) == ((b : Int))) = (a == b) := by
  by_cases h : a = b
  · subst h
    simp
  · have h2 : (a : Int) ≠ (b : Int) := by exact_mod_cast h
    simp [h, h2]

/-- The availability/stock `SELECT` of the v3 loop finds nothing when the
item row behind the requested id is not `available` or has less stock than
requested (the id column is unique). -/
theorem V3.line_select_none (db : V3.DB) (i : Nat) (q : Int) (itm : V3.Item)
    (hnodup : (db.items.map V3.Item.item_id).Nodup)
    (hfind : db.items.find? (fun it => it.item_id == i) = some itm)
    (hfail : itm.status ≠ "available" ∨ itm.quantity < q) :
    db.items.find? (fun it => ((it.item_id : Int) == ((i : Nat) : Int)) &&
      it.status == "available" && decide (q ≤ it.quantity)) = none := by
  have huniq := matching_eq_of_nodup V3.Item.item_id db.items hnodup
    (fun it => it.item_id == i) itm hfind
    (fun y hy => by
      have h1 : y.item_id = i := by simpa using hy
      have h2 : itm.item_id = i := by simpa using List.find?_some hfind
      rw [h1, h2])
  rw [List.find?_eq_none]
  intro y hy hcon
  rw [Bool.and_eq_true, Bool.and_eq_true] at hcon
  obtain ⟨⟨hkey, hst⟩, hqt⟩ := hcon
  rw [natCast_beq_natCast] at hkey
  obtain rfl := huniq y hy hkey
  rcases hfail with hf | hf
  · exact hf (by simpa using hst)
  · rw [decide_eq_true_eq] at hqt
    omega

/-- The availability/stock `SELECT` of the v3 loop returns the item row
behind the requested id when it is `available` with enough stock. -/
theorem V3.line_select_some (db : V3.DB) (i : Nat) (q : Int) (itm : V3.Item)
    (hfind : db.items.find? (fun it => it.item_id == i) = some itm)
    (havail : itm.status = "available") (hq : q ≤ itm.quantity) :
    db.items.find? (fun it => ((it.item_id : Int) == ((i : Nat) : Int)) &&
      it.status == "available" && decide (q ≤ it.quantity)) = some itm := by
  have hbase : db.items.find?
      (fun it => ((it.item_id : Int) == ((i : Nat) : Int))) = some itm := by
    have : (fun it : V3.Item => ((it.item_id : Int) == ((i : Nat) : Int))) =
        (fun it => it.item_id == i) := funext fun it => natCast_beq_natCast ..
    rw [this]
    exact hfind
  have h1 := find?_and_of_find? _ (fun it => it.status == "available")
    db.items itm hbase (by simp [havail])
  exact find?_and_of_find? _ (fun it => decide (q ≤ it.quantity))
    db.items itm h1 (by simpa using hq)

/-- A v3 order insert built from an in-stock line by a third-party buyer
succeeds and yields the post-trigger state. -/
theorem V3.insertOrder_line_ok (db : V3.DB) (buyer k : Nat)
    (supply : Nat → String × Nat) (itm : V3.Item) (q : Int)
    (hfind : db.items.find? (fun it => it.item_id == itm.item_id) = some itm)
    (hbuyer : buyer ≠ itm.seller_id) (hstock : ¬ itm.quantity < q) :
    V3.insertOrder db (V3.lineOrder buyer k supply itm q) =
      .ok ⟨V3.after_order_insert_update_item_stock db.items
             (V3.lineOrder buyer k supply itm q),
           db.orders ++ [V3.lineOrder buyer k supply itm q]⟩ := by
  unfold V3.insertOrder
  rw [if_neg (by simp [V3.prevent_self_purchase, V3.lineOrder, hbuyer])]
  rw [if_neg (by
    simp only [V3.check_stock_before_order, V3.lineOrder, hfind]
    simpa using hstock)]

/-- After the insert trigger, the item row behind the inserted line is
decremented and flips to `sold` exactly when the new stock is `≤ 0`. -/
theorem V3.after_insert_find (items : List V3.Item) (itm : V3.Item) (i : Nat)
    (o : V3.Order)
    (hfind : items.find? (fun it => it.item_id == i) = some itm)
    (ho : o.item_id = some i) :
    (V3.after_order_insert_update_item_stock items o).find?
        (fun it => it.item_id == i) =
      some { itm with
             quantity := itm.quantity - o.quantity_ordered,
             status := (if itm.quantity - o.quantity_ordered ≤ 0 then "sold"
                        else itm.status) } := by
  have hii : itm.item_id = i := by simpa using List.find?_some hfind
  unfold V3.after_order_insert_update_item_stock
  rw [find?_map_pred _ _ _ (fun it => by
    by_cases hc : (some it.item_id == o.item_id && decide (it.quantity ≤ 0)) = true <;>
      simp [hc])]
  rw [find?_map_pred _ _ _ (fun it => by
    by_cases hc : (some it.item_id == o.item_id) = true <;> simp [hc])]
  rw [hfind]
  simp only [Option.map_some']
  by_cases hz : itm.quantity - o.quantity_ordered ≤ 0
  · simp [hii, ho, hz]
  · simp [hii, ho, hz]

/-- One successful line of the v3 loop: the insert goes through and the
loop continues on the post-insert state. -/
theorem V3.placeLines_cons_success (db : V3.DB) (buyer k i : Nat)
    (supply : Nat → String × Nat) (qo : Option Int) (nm : String)
    (rest : List V3.CartLine) (itm : V3.Item)
    (hfind : db.items.find? (fun it => it.item_id == i) = some itm)
    (havail : itm.status = "available") (hq : qo.getD 1 ≤ itm.quantity)
    (hbuyer : buyer ≠ itm.seller_id) :
    V3.placeLines buyer supply db k (⟨some ((i : Nat) : Int), qo, nm⟩ :: rest) =
      V3.placeLines buyer supply
        ⟨V3.after_order_insert_update_item_stock db.items
           (V3.lineOrder buyer k supply itm (qo.getD 1)),
         db.orders ++ [V3.lineOrder buyer k supply itm (qo.getD 1)]⟩
        (k + 1) rest := by
  have hsel := V3.line_select_some db i (qo.getD 1) itm hfind havail hq
  have hfind2 : db.items.find? (fun it => it.item_id == itm.item_id) = some itm := by
    have hii : itm.item_id = i := by simpa using List.find?_some hfind
    rw [hii]
    exact hfind
  have hins := V3.insertOrder_line_ok db buyer k supply itm (qo.getD 1)
    hfind2 hbuyer (by omega)
  rw [V3.placeLines]
  simp only [hsel, hins]

/-! ## C2 — per-line check/decrement semantics of v3 placement -/

/-- C2 (amended): for a cart line processed by the v3 loop against the
item row behind its id: if the item is not `available` or has less stock
than requested, the line fails (the app-level `SELECT` raises the lumped
unavailable/out-of-stock error); if the check passes but the buyer is the
item's seller, the line fails with the self-purchase abort instead of
decrementing; otherwise the item's quantity drops by exactly the
requested amount, the status flips to `sold` exactly when the result is
`≤ 0`, and the loop continues on the post-insert state. -/
theorem c2_v3_cart_line_semantics (db : V3.DB) (buyer k i : Nat)
    (supply : Nat → String × Nat) (qo : Option Int) (nm : String)
    (rest : List V3.CartLine) (itm : V3.Item)
    (hnodup : (db.items.map V3.Item.item_id).Nodup)
    (hfind : db.items.find? (fun it => it.item_id == i) = some itm) :
    ((itm.status ≠ "available" ∨ itm.quantity < qo.getD 1) →
      V3.placeLines buyer supply db k (⟨some ((i : Nat) : Int), qo, nm⟩ :: rest) =
        .error V3.PlaceOutcome.lineFailed) ∧
    (itm.status = "available" → qo.getD 1 ≤ itm.quantity →
     buyer = itm.seller_id →
      V3.placeLines buyer supply db k (⟨some ((i : Nat) : Int), qo, nm⟩ :: rest) =
        .error V3.PlaceOutcome.selfPurchaseAbort) ∧
    (itm.status = "available" → qo.getD 1 ≤ itm.quantity →
     buyer ≠ itm.seller_id →
      V3.placeLines buyer supply db k (⟨some ((i : Nat) : Int), qo, nm⟩ :: rest) =
        V3.placeLines buyer supply
          ⟨V3.after_order_insert_update_item_stock db.items
             (V3.lineOrder buyer k supply itm (qo.getD 1)),
           db.orders ++ [V3.lineOrder buyer k supply itm (qo.getD 1)]⟩
          (k + 1) rest ∧
      (V3.after_order_insert_update_item_stock db.items
          (V3.lineOrder buyer k supply itm (qo.getD 1))).find?
          (fun it => it.item_id == i) =
        some { itm with
               quantity := itm.quantity - qo.getD 1,
               status := (if itm.quantity - qo.getD 1 ≤ 0 then "sold"
                          else itm.status) }) := by
  have hii : itm.item_id = i := by simpa using List.find?_some hfind
  refine ⟨?_, ?_, ?_⟩
  · intro hfail
    have hnone := V3.line_select_none db i (qo.getD 1) itm hnodup hfind hfail
    rw [V3.placeLines]
    simp only [hnone]
  · intro havail hq hself
    have hsel := V3.line_select_some db i (qo.getD 1) itm hfind havail hq
    have hins : V3.insertOrder db (V3.lineOrder buyer k supply itm (qo.getD 1)) =
        .error .selfPurchase := by
      unfold V3.insertOrder
      rw [if_pos (by simp [V3.prevent_self_purchase, V3.lineOrder, hself])]
    rw [V3.placeLines]
    simp only [hsel, hins]
  · intro havail hq hbuyer
    refine ⟨V3.placeLines_cons_success db buyer k i supply qo nm rest itm
      hfind havail hq hbuyer, ?_⟩
    exact V3.after_insert_find db.items itm i _ hfind (by simp [V3.lineOrder, hii])

/-- An available v3 item with stock 5, sold by user 1. -/
def c2db : V3.DB := ⟨[⟨4, 1, "Book", 50, "available", 5⟩], []⟩

/-- Witness for C2: seller 1 buying their own book aborts with the
self-purchase error; a request for 9 of 5 fails as out of stock; buyer 2
taking 2 leaves stock 3, still available. -/
theorem c2_v3_cart_line_semantics_witness :
    V3.placeLines 1 fixedSupply c2db 0 [⟨some ((4 : Nat) : Int), some 2, "Book"⟩] =
      .error V3.PlaceOutcome.selfPurchaseAbort ∧
    V3.placeLines 9 fixedSupply c2db 0 [⟨some ((4 : Nat) : Int), some 9, "Book"⟩] =
      .error V3.PlaceOutcome.lineFailed ∧
    (V3.after_order_insert_update_item_stock c2db.items
        (V3.lineOrder 2 0 fixedSupply ⟨4, 1, "Book", 50, "available", 5⟩
          ((some (2 : Int)).getD 1))).find? (fun it => it.item_id == 4) =
      some { item_id := 4, seller_id := 1, name := "Book", price := 50,
             status := (if (5 : Int) - 2 ≤ 0 then "sold" else "available"),
             quantity := 3 } :=
  ⟨(c2_v3_cart_line_semantics c2db 1 0 4 fixedSupply (some 2) "Book" []
      ⟨4, 1, "Book", 50, "available", 5⟩ (by decide) (by decide)).2.1
      (by decide) (by decide) (by decide),
   (c2_v3_cart_line_semantics c2db 9 0 4 fixedSupply (some 9) "Book" []
      ⟨4, 1, "Book", 50, "available", 5⟩ (by decide) (by decide)).1
      (Or.inr (by decide)),
   ((c2_v3_cart_line_semantics c2db 2 0 4 fixedSupply (some 2) "Book" []
      ⟨4, 1, "Book", 50, "available", 5⟩ (by decide) (by decide)).2.2
      (by decide) (by decide) (by decide)).2⟩

/-! ## C5 — cancellation round-trip (v3) -/

/-- A cancellable order owned by the requester is marked `cancelled` and
its item restocked and re-listed. -/
theorem V3.cancel_order_ok (db : V3.DB) (requester : Nat) (oid : String)
    (o : V3.Order)
    (hfind : db.orders.find?
      (fun p => p.order_id == oid && p.buyer_id == requester) = some o)
    (hst : (o.order_status == "pending" || o.order_status == "in_transit" ||
            o.order_status == "ready_for_pickup") = true) :
    V3.cancel_order db requester oid =
      (V3.CancelOutcome.ok,
       ⟨db.items.map fun it =>
          if some it.item_id == o.item_id then
            { it with quantity := it.quantity + o.quantity_ordered,
                      status := "available" }
          else it,
        db.orders.map fun p =>
          if p.order_id == oid then { p with order_status := "cancelled" }
          else p⟩) := by
  unfold V3.cancel_order
  simp only [hfind, hst, if_true]

/-- C5: placing a single-line order of `q ≤ stock` against an available
item (fresh order id, third-party buyer) leaves the item with `stock − q`
(flipping to `sold` when that hits 0), and the buyer cancelling that very
order while it is `pending` restores the item row exactly — stock back to
its original value and status `available`. -/
theorem c5_cancellation_roundtrip (db : V3.DB) (buyer i : Nat) (q : Int)
    (nm : String) (supply : Nat → String × Nat) (itm : V3.Item)
    (hfind : db.items.find? (fun it => it.item_id == i) = some itm)
    (havail : itm.status = "available")
    (hq0 : 0 < q) (hq : q ≤ itm.quantity)
    (hbuyer : buyer ≠ itm.seller_id)
    (hfresh : ∀ p ∈ db.orders, p.order_id ≠ (supply 0).1) :
    ∃ db2,
      V3.place_order db buyer (.lines [⟨some ((i : Nat) : Int), some q, nm⟩])
          supply = (V3.PlaceOutcome.success, db2) ∧
      db2.items.find? (fun it => it.item_id == i) =
        some { itm with
               quantity := itm.quantity - q,
               status := (if itm.quantity - q ≤ 0 then "sold"
                          else "available") } ∧
      ∃ db3,
        V3.cancel_order db2 buyer (supply 0).1 = (V3.CancelOutcome.ok, db3) ∧
        db3.items.find? (fun it => it.item_id == i) = some itm := by
  have hii : itm.item_id = i := by simpa using List.find?_some hfind
  have hq2 : (some q).getD 1 ≤ itm.quantity := by simpa using hq
  have hstep := V3.placeLines_cons_success db buyer 0 i supply (some q) nm []
    itm hfind havail hq2 hbuyer
  refine ⟨⟨V3.after_order_insert_update_item_stock db.items
            (V3.lineOrder buyer 0 supply itm ((some q).getD 1)),
          db.orders ++ [V3.lineOrder buyer 0 supply itm ((some q).getD 1)]⟩,
    ?_, ?_, ?_⟩
  · unfold V3.place_order
    simp only [hstep]
    rfl
  · have h2 := V3.after_insert_find db.items itm i
      (V3.lineOrder buyer 0 supply itm ((some q).getD 1)) hfind
      (by simp [V3.lineOrder, hii])
    simpa [V3.lineOrder, havail] using h2
  · have hcfind : (db.orders ++
        [V3.lineOrder buyer 0 supply itm ((some q).getD 1)]).find?
        (fun p => p.order_id == (supply 0).1 && p.buyer_id == buyer) =
        some (V3.lineOrder buyer 0 supply itm ((some q).getD 1)) := by
      rw [List.find?_append]
      rw [List.find?_eq_none.mpr (fun p hp => by
        simp only [Bool.and_eq_true, not_and]
        intro hcon
        exact absurd (by simpa using hcon) (hfresh p hp))]
      simp [V3.lineOrder, generate_order_id]
    have hcancel := V3.cancel_order_ok
      ⟨V3.after_order_insert_update_item_stock db.items
         (V3.lineOrder buyer 0 supply itm ((some q).getD 1)),
       db.orders ++ [V3.lineOrder buyer 0 supply itm ((some q).getD 1)]⟩
      buyer (supply 0).1
      (V3.lineOrder buyer 0 supply itm ((some q).getD 1))
      hcfind (by simp [V3.lineOrder])
    refine ⟨_, hcancel, ?_⟩
    show (List.map _ (V3.after_order_insert_update_item_stock db.items
      (V3.lineOrder buyer 0 supply itm ((some q).getD 1)))).find?
      (fun it => it.item_id == i) = some itm
    rw [find?_map_pred _ _ _ (fun it => by split <;> simp)]
    rw [V3.after_insert_find db.items itm i
      (V3.lineOrder buyer 0 supply itm ((some q).getD 1)) hfind
      (by simp [V3.lineOrder, hii])]
    obtain ⟨iid, sid, inm2, ipr, ist, iqt⟩ := itm
    simp only [V3.lineOrder, Option.getD_some, Option.map_some']
    rw [if_pos (by simp)]
    have harith : iqt - q + q = iqt := by omega
    simp only at havail
    simp [harith, havail]

/-- Witness for C5: the spec's own numbers — stock 5, order 2, stock
drops to 3, cancelling restores 5 and `available`. -/
theorem c5_cancellation_roundtrip_witness :
    ∃ db2,
      V3.place_order v3db3 2
          (.lines [⟨some ((1 : Nat) : Int), some 2, "Laptop"⟩]) fixedSupply =
        (V3.PlaceOutcome.success, db2) ∧
      db2.items.find? (fun it => it.item_id == 1) =
        some { item_id := 1, seller_id := 1, name := "Laptop", price := 600,
               status := (if (5 : Int) - 2 ≤ 0 then "sold" else "available"),
               quantity := 3 } ∧
      ∃ db3,
        V3.cancel_order db2 2 (fixedSupply 0).1 = (V3.CancelOutcome.ok, db3) ∧
        db3.items.find? (fun it => it.item_id == 1) =
          some ⟨1, 1, "Laptop", 600, "available", 5⟩ := by
  have h := c5_cancellation_roundtrip v3db3 2 1 2 "Laptop" fixedSupply
    ⟨1, 1, "Laptop", 600, "available", 5⟩ (by decide) (by decide) (by decide)
    (by decide) (by decide) (fun p hp => absurd hp (by simp [v3db3]))
  rcases h with ⟨db2, h1, h2, h3⟩
  exact ⟨db2, h1, by simpa using h2, h3⟩

/-- C2 counterexample: seller 1's own line references an available item
with stock 5 ≥ 2 requested, yet the line fails on the self-purchase
trigger and the quantity is NOT decremented — against the claim's
"otherwise the item's quantity is decremented by exactly the requested
quantity". -/
theorem c2_counterexample_self_purchase_line_not_decremented :
    c2db.items.map V3.Item.status = ["available"] ∧
    c2db.items.map V3.Item.quantity = [5] ∧
    (V3.place_order c2db 1
      (.lines [⟨some ((4 : Nat) : Int), some 2, "Book"⟩]) fixedSupply).1 =
      V3.PlaceOutcome.selfPurchaseAbort ∧
    ((V3.place_order c2db 1
      (.lines [⟨some ((4 : Nat) : Int), some 2, "Book"⟩]) fixedSupply).2.items.map
        V3.Item.quantity) = [5] := by
  exact ⟨by decide, by decide, by decide, by decide⟩
